import Mathlib

/-!
Verification of the relay service (Express + TypeScript backend).

The repository has two source files:
* `src/unnamed/part_000` — the current server: `GET /`, `POST /api/completion`
  (chat completion with optional image generation) and `POST /api/tts`
  (Azure speech synthesis streamed back as audio bytes).
* `src/src/index.ts` — an older server with only the plain completion route.

We shallowly embed the two request handlers as pure functions from the parsed
request body and the behavior of the external providers to a trace recording
which provider calls were made, the HTTP response produced, and (for TTS)
whether the synthesis session was closed and whether a promise rejection
escaped the handler.

A central point of the TTS embedding: the handler executes
`return new Promise((resolve, reject) => { synthesizer.speakTextAsync(...) })`
inside its `try` block, without `await`.  Under JavaScript async-function
semantics the `try`/`catch` frame is exited when the `return` statement runs,
before the promise settles; a later `reject(...)` therefore never reaches the
`catch` block.  The returned promise rejects, Express ignores the handler's
return value, and the rejection escapes as an unhandled promise rejection:
no HTTP response is written on that path and `synthesizer.close()` is never
reached.  The `catch` block is reachable only from synchronous throws
(e.g. `sdk.SpeechConfig.fromSubscription` failing), which we model with the
`configThrow` parameter.
-/

/-- A role-tagged chat message, as found in the `messages` array of the
completion request body. -/
structure ChatMessage where
  role : String
  content : String
deriving Repr, DecidableEq

/-- Token-usage metrics returned by the chat-completion provider and passed
through opaquely by the handler (`completion.usage`). -/
structure Usage where
  promptTokens : Nat
  completionTokens : Nat
  totalTokens : Nat
deriving Repr, DecidableEq

/-- The request the handler sends to the chat-completion provider:
`openai.chat.completions.create({ messages, model })`. -/
structure ChatApiRequest where
  messages : List ChatMessage
  model : String
deriving Repr, DecidableEq

/-- Outcome of the awaited chat-completion call.  `success` carries
`completion.choices[0].message.content` (nullable in the SDK, hence
`Option String`) and `completion.usage`.  `failure` is a thrown error:
`some msg` when the thrown value is an `Error` with message `msg`, `none`
when a non-`Error` value was thrown (the handler then reports
"Unknown error"). -/
inductive ChatOutcome where
  | success (content : Option String) (usage : Usage)
  | failure (errMsg : Option String)
deriving Repr, DecidableEq

/-- The request the handler sends to the image-generation provider:
`openai.images.generate({ model, prompt, n, size })`. -/
structure ImageRequest where
  model : String
  prompt : String
  n : Nat
  size : String
deriving Repr, DecidableEq

/-- Outcome of the awaited image-generation call; on success the handler reads
`imageResponse.data[0].url`. -/
inductive ImageOutcome where
  | success (url : String)
  | failure (errMsg : Option String)
deriving Repr, DecidableEq

/-- The JSON body sent with status 200 by the completion handler.  `message`
is the (nullable) generated text, `image` is present exactly when the image
call succeeded, `error` is present exactly when the image call failed, and
`usage` is the pass-through usage object. -/
structure CompletionSuccessBody where
  message : Option String
  image : Option String
  error : Option String
  usage : Usage
deriving Repr, DecidableEq

/-- The HTTP response of the completion handler: `ok` is `res.json(...)`
(status 200), `serverError` is `res.status(500).json({ error, details })`. -/
inductive CompletionResponse where
  | ok (body : CompletionSuccessBody)
  | serverError (error : String) (details : String)
deriving Repr, DecidableEq

/-- HTTP status code of a completion-handler response. -/
def CompletionResponse.status : CompletionResponse → Nat
  | .ok _ => 200
  | .serverError _ _ => 500

/-- Observable trace of one completion request: the chat call made, the image
call if one was made, and the response sent. -/
structure CompletionTrace where
  chatCall : ChatApiRequest
  imageCall : Option ImageRequest
  response : CompletionResponse
deriving Repr, DecidableEq

/-- Parsed body of `POST /api/completion` in `src/unnamed/part_000`:
`const { messages, generateImage = false } = req.body`.  `generateImage` is
`none` when the field is omitted (the destructuring default then makes it
`false`). -/
structure CompletionRequestBody where
  messages : List ChatMessage
  generateImage : Option Bool
deriving Repr, DecidableEq

/-- The `POST /api/completion` handler of `src/unnamed/part_000`
(lines 57–107).  `chat` and `image` give the behavior of the two awaited
provider calls.  Both calls are awaited, so a rejection of either is caught
by the enclosing `try`/`catch` structure exactly as in the source:
* chat failure → the outer catch → 500 `{error, details}`, image never called;
* image failure → the inner catch → 200 with the text result and the marker
  `"Image generation failed"` instead of an image URL. -/
def handleCompletion (body : CompletionRequestBody)
    (chat : ChatApiRequest → ChatOutcome)
    (image : ImageRequest → ImageOutcome) : CompletionTrace :=
  let generateImage := body.generateImage.getD false
  let chatReq : ChatApiRequest := ⟨body.messages, "gpt-3.5-turbo"⟩
  match chat chatReq with
  | .failure errMsg =>
      { chatCall := chatReq, imageCall := none,
        response := .serverError "Error processing your request"
          (errMsg.getD "Unknown error") }
  | .success content usage =>
      if generateImage then
        let imgReq : ImageRequest :=
          ⟨"dall-e-3", content.getD "", 1, "1024x1024"⟩
        match image imgReq with
        | .success url =>
            { chatCall := chatReq, imageCall := some imgReq,
              response := .ok ⟨content, some url, none, usage⟩ }
        | .failure _ =>
            { chatCall := chatReq, imageCall := some imgReq,
              response := .ok ⟨content, none,
                some "Image generation failed", usage⟩ }
      else
        { chatCall := chatReq, imageCall := none,
          response := .ok ⟨content, none, none, usage⟩ }

/-- The `POST /api/completion` handler of the older `src/src/index.ts`
(lines 25–45): only `messages` is read from the body, the chat call is made
with model `"gpt-3.5-turbo"`, and the response is `{message, usage}` on
success or a 500 `{error, details}` envelope on failure.  No image call
exists in this handler, so `imageCall` is always `none`. -/
def handleCompletionOld (messages : List ChatMessage)
    (chat : ChatApiRequest → ChatOutcome) : CompletionTrace :=
  let chatReq : ChatApiRequest := ⟨messages, "gpt-3.5-turbo"⟩
  match chat chatReq with
  | .failure errMsg =>
      { chatCall := chatReq, imageCall := none,
        response := .serverError "Error processing your request"
          (errMsg.getD "Unknown error") }
  | .success content usage =>
      { chatCall := chatReq, imageCall := none,
        response := .ok ⟨content, none, none, usage⟩ }

/-- Parsed body of `POST /api/tts`:
`const { text, voice = "en-US-JennyMultilingualNeural" } = req.body`.
Each field is `none` when absent from the JSON body. -/
structure TtsRequestBody where
  text : Option String
  voice : Option String
deriving Repr, DecidableEq

/-- JavaScript truthiness of the guard `if (!text)`: true when `text` is
absent (`undefined`) or the empty string. -/
def textFalsy : Option String → Bool
  | none => true
  | some s => s = ""

/-- The voice used when the request omits `voice`. -/
def defaultVoice : String := "en-US-JennyMultilingualNeural"

/-- The call the handler makes to the synthesis provider: `speakTextAsync`
on a synthesizer whose `SpeechConfig` has `speechSynthesisVoiceName` set. -/
structure SynthCall where
  voiceName : String
  text : String
deriving Repr, DecidableEq

/-- How the synthesis provider answers `speakTextAsync`: it invokes exactly
one of the two callbacks.  `completed r` is the success callback with result
`r`; the outer `Option` is `none` when `result` is `null`/`undefined`
(`if (result && ...)`), the inner `Option` is the `audioData` field
(`none` when absent), carrying the audio bytes otherwise.  `errored msg` is
the error callback. -/
inductive SynthInvocation where
  | completed (result : Option (Option (List Nat)))
  | errored (errMsg : String)
deriving Repr, DecidableEq

/-- The HTTP response of the TTS handler as the client observes it.
`badRequest` is `res.status(400).json({error})`; `audio` is the 200 response
with the listed headers whose body is the written byte buffer, ended by
`res.end()`; `serverError` is `res.status(500).json({error, details})`;
`noResponse` means the handler never wrote anything to the response. -/
inductive TtsHttpResponse where
  | badRequest (error : String)
  | audio (headers : List (String × String)) (bytes : List Nat)
  | serverError (error : String) (details : String)
  | noResponse
deriving Repr, DecidableEq

/-- HTTP status code of a TTS response; `none` when no response was sent. -/
def TtsHttpResponse.status : TtsHttpResponse → Option Nat
  | .badRequest _ => some 400
  | .audio _ _ => some 200
  | .serverError _ _ => some 500
  | .noResponse => none

/-- Observable trace of one TTS request.  `sessionCreated` records whether a
`SpeechConfig`/`SpeechSynthesizer` was constructed; `synthCall` is the
`speakTextAsync` invocation if one was made; `synthesizerClosed` records
whether `synthesizer.close()` ran; `uncaughtRejection` is the value of a
promise rejection that escaped the handler (the handler returns the promise
without awaiting it, so its `catch` never sees the rejection). -/
structure TtsTrace where
  sessionCreated : Bool
  synthCall : Option SynthCall
  response : TtsHttpResponse
  synthesizerClosed : Bool
  uncaughtRejection : Option String
deriving Repr, DecidableEq

/-- Headers set by `res.set` before synthesis. -/
def ttsHeaders : List (String × String) :=
  [("Content-Type", "audio/wav"), ("Transfer-Encoding", "chunked")]

/-- The `POST /api/tts` handler of `src/unnamed/part_000` (lines 110–162).

`configThrow` models a synchronous throw while constructing the speech
config/session (`some msg` = an `Error` with message `msg` thrown, that being
the only synchronous failure point before `res.set`); only such synchronous
throws reach the `catch` block, where `res.headersSent` is still `false`, so
a 500 envelope is sent.  `synth` gives the provider's asynchronous answer.

On the success callback with audio data the handler writes the buffer, ends
the response and closes the synthesizer.  On a `null` result or missing
`audioData` it calls `reject(new Error("No audio data generated"))`; on the
error callback it calls `reject(error)`.  Because the promise was returned
un-awaited from inside `try`, both rejections bypass the `catch`: no response
is written, the synthesizer is not closed, and the rejection escapes. -/
def handleTts (body : TtsRequestBody) (configThrow : Option String)
    (synth : SynthCall → SynthInvocation) : TtsTrace :=
  if textFalsy body.text then
    { sessionCreated := false, synthCall := none,
      response := .badRequest "Text is required",
      synthesizerClosed := false, uncaughtRejection := none }
  else
    match configThrow with
    | some msg =>
        { sessionCreated := false, synthCall := none,
          response := .serverError "Error processing your request" msg,
          synthesizerClosed := false, uncaughtRejection := none }
    | none =>
        let call : SynthCall :=
          ⟨body.voice.getD defaultVoice, body.text.getD ""⟩
        match synth call with
        | .completed (some (some bytes)) =>
            { sessionCreated := true, synthCall := some call,
              response := .audio ttsHeaders bytes,
              synthesizerClosed := true, uncaughtRejection := none }
        | .completed (some none) =>
            { sessionCreated := true, synthCall := some call,
              response := .noResponse, synthesizerClosed := false,
              uncaughtRejection := some "No audio data generated" }
        | .completed none =>
            { sessionCreated := true, synthCall := some call,
              response := .noResponse, synthesizerClosed := false,
              uncaughtRejection := some "No audio data generated" }
        | .errored msg =>
            { sessionCreated := true, synthCall := some call,
              response := .noResponse, synthesizerClosed := false,
              uncaughtRejection := some msg }

/-! ## Helper lemmas -/

/-- For a non-falsy text and no synchronous throw, `speakTextAsync` is always
invoked, with the defaulted voice and the request text, whatever the provider
then does. -/
theorem handleTts_synthCall_eq (body : TtsRequestBody)
    (synth : SynthCall → SynthInvocation)
    (htext : textFalsy body.text = false) :
    (handleTts body none synth).synthCall =
      some ⟨body.voice.getD defaultVoice, body.text.getD ""⟩ := by
  unfold handleTts
  simp only [htext, Bool.false_eq_true, if_false]
  cases h : synth ⟨body.voice.getD defaultVoice, body.text.getD ""⟩ with
  | completed r => rcases r with _ | (_ | bytes) <;> simp
  | errored msg => simp

/-! ## Claims -/

/-- Claim C1 (evaluation at the failing input): for `POST /api/tts` with
text `"hi"`, when the provider signals an error (here `"network failure"`)
before any response bytes were written, the handler does NOT respond 500:
the rejection bypasses the `catch` block (the promise was returned from the
`try` without `await`), so no response at all is written
(`response = noResponse`, status `none`) and the rejection escapes the
handler as an uncaught fault (`uncaughtRejection = some "network failure"`).
This contradicts the claimed 500 `{error, details}` response and the claimed
absence of uncaught faults. -/
theorem C1_tts_rejection_escapes_uncaught :
    handleTts ⟨some "hi", none⟩ none (fun _ => .errored "network failure") =
      { sessionCreated := true,
        synthCall := some ⟨defaultVoice, "hi"⟩,
        response := .noResponse,
        synthesizerClosed := false,
        uncaughtRejection := some "network failure" } := rfl

/-- Claim C2: if `generateImage` is true, the chat call succeeds, and the
image call then fails, the handler still responds HTTP 200 with the original
message and usage plus the marker `"Image generation failed"` in the `error`
field and no `image` field; the image failure never becomes a 500. -/
theorem C2_image_failure_still_200 (body : CompletionRequestBody)
    (chat : ChatApiRequest → ChatOutcome) (image : ImageRequest → ImageOutcome)
    (content : Option String) (usage : Usage) (e : Option String)
    (hgen : body.generateImage = some true)
    (hchat : chat ⟨body.messages, "gpt-3.5-turbo"⟩ = .success content usage)
    (himg : image ⟨"dall-e-3", content.getD "", 1, "1024x1024"⟩ = .failure e) :
    (handleCompletion body chat image).response =
      .ok ⟨content, none, some "Image generation failed", usage⟩ ∧
    ((handleCompletion body chat image).response).status = 200 := by
  have heq : (handleCompletion body chat image).response =
      .ok ⟨content, none, some "Image generation failed", usage⟩ := by
    unfold handleCompletion
    simp [hgen, hchat, himg]
  exact ⟨heq, by rw [heq]; try rfl⟩

/-- Claim C2 witness: a concrete request with `generateImage: true`, a
succeeding chat provider and a failing image provider. -/
theorem C2_witness :
    (handleCompletion ⟨[⟨"user", "hello"⟩], some true⟩
        (fun _ => .success (some "hi") ⟨1, 2, 3⟩)
        (fun _ => .failure (some "boom"))).response =
      .ok ⟨some "hi", none, some "Image generation failed", ⟨1, 2, 3⟩⟩ :=
  (C2_image_failure_still_200 ⟨[⟨"user", "hello"⟩], some true⟩
    (fun _ => .success (some "hi") ⟨1, 2, 3⟩)
    (fun _ => .failure (some "boom"))
    (some "hi") ⟨1, 2, 3⟩ (some "boom") rfl rfl rfl).1

/-- Claim C3: if the chat-completion call fails, the handler responds 500
with the fixed `error` summary and the `details` string derived from the
thrown value, and the image provider is never invoked — for every request
body, hence regardless of the `generateImage` flag.  The `serverError`
response carries no `message`, `usage` or `image` field, so no partial
output is returned. -/
theorem C3_chat_failure_500_no_image (body : CompletionRequestBody)
    (chat : ChatApiRequest → ChatOutcome) (image : ImageRequest → ImageOutcome)
    (e : Option String)
    (hchat : chat ⟨body.messages, "gpt-3.5-turbo"⟩ = .failure e) :
    (handleCompletion body chat image).response =
      .serverError "Error processing your request" (e.getD "Unknown error") ∧
    (handleCompletion body chat image).imageCall = none ∧
    ((handleCompletion body chat image).response).status = 500 := by
  have heq : handleCompletion body chat image =
      { chatCall := ⟨body.messages, "gpt-3.5-turbo"⟩, imageCall := none,
        response := .serverError "Error processing your request"
          (e.getD "Unknown error") } := by
    unfold handleCompletion
    simp [hchat]
  exact ⟨by rw [heq]; try rfl, by rw [heq]; try rfl, by rw [heq]; try rfl⟩

/-- Claim C3 witness: a concrete request with `generateImage: true` whose
chat provider throws an `Error` with message `"quota exceeded"`. -/
theorem C3_witness :
    (handleCompletion ⟨[⟨"user", "hello"⟩], some true⟩
        (fun _ => .failure (some "quota exceeded"))
        (fun _ => .success "http://img")).response =
      .serverError "Error processing your request" "quota exceeded" ∧
    (handleCompletion ⟨[⟨"user", "hello"⟩], some true⟩
        (fun _ => .failure (some "quota exceeded"))
        (fun _ => .success "http://img")).imageCall = none :=
  ⟨(C3_chat_failure_500_no_image ⟨[⟨"user", "hello"⟩], some true⟩
      (fun _ => .failure (some "quota exceeded"))
      (fun _ => .success "http://img") (some "quota exceeded") rfl).1,
   (C3_chat_failure_500_no_image ⟨[⟨"user", "hello"⟩], some true⟩
      (fun _ => .failure (some "quota exceeded"))
      (fun _ => .success "http://img") (some "quota exceeded") rfl).2.1⟩

/-- Claim C4 counterexample: a `POST /api/tts` request with text `"hi"` whose
provider signals a synthesis error does NOT dispose of the synthesizer:
`synthesizer.close()` is only reached inside the success-with-audio-data
callback branch, so on this outcome the session is never closed. -/
theorem C4_counterexample :
    (handleTts ⟨some "hi", none⟩ none
        (fun _ => .errored "synthesis failed")).synthesizerClosed = false := rfl

/-- Claim C4 (amended): the synthesizer is closed exactly when the provider
invokes the success callback with a result carrying audio data; on a
no-audio-data result or a synthesis error it is never closed. -/
theorem C4_closed_iff_audio (body : TtsRequestBody)
    (synth : SynthCall → SynthInvocation)
    (htext : textFalsy body.text = false) :
    (handleTts body none synth).synthesizerClosed = true ↔
      ∃ bytes, synth ⟨body.voice.getD defaultVoice, body.text.getD ""⟩ =
        .completed (some (some bytes)) := by
  unfold handleTts
  simp only [htext, Bool.false_eq_true, if_false]
  cases h : synth ⟨body.voice.getD defaultVoice, body.text.getD ""⟩ with
  | completed r => rcases r with _ | (_ | bytes) <;> simp
  | errored msg => simp

/-- Claim C4 witness: on a provider that returns audio bytes, the synthesizer
is closed. -/
theorem C4_witness :
    (handleTts ⟨some "ok", some "voiceX"⟩ none
        (fun _ => .completed (some (some [1, 2])))).synthesizerClosed = true :=
  (C4_closed_iff_audio ⟨some "ok", some "voiceX"⟩
    (fun _ => .completed (some (some [1, 2]))) rfl).mpr ⟨[1, 2], rfl⟩

/-- Claim C5: with a missing or empty `text` field, the handler responds
HTTP 400 `{error: "Text is required"}` and performs no provider interaction:
no speech config or synthesizer is created and `speakTextAsync` is never
called — for every `voice`, every possible synchronous-throw behavior and
every provider behavior. -/
theorem C5_empty_text_400_no_provider (body : TtsRequestBody)
    (configThrow : Option String) (synth : SynthCall → SynthInvocation)
    (htext : textFalsy body.text = true) :
    handleTts body configThrow synth =
      { sessionCreated := false, synthCall := none,
        response := .badRequest "Text is required",
        synthesizerClosed := false, uncaughtRejection := none } ∧
    ((handleTts body configThrow synth).response).status = some 400 := by
  have heq : handleTts body configThrow synth =
      { sessionCreated := false, synthCall := none,
        response := .badRequest "Text is required",
        synthesizerClosed := false, uncaughtRejection := none } := by
    unfold handleTts
    simp [htext]
  exact ⟨heq, by rw [heq]; try rfl⟩

/-- Claim C5 witness: a request with `text: ""`. -/
theorem C5_witness :
    handleTts ⟨some "", none⟩ none (fun _ => .errored "never called") =
      { sessionCreated := false, synthCall := none,
        response := .badRequest "Text is required",
        synthesizerClosed := false, uncaughtRejection := none } :=
  (C5_empty_text_400_no_provider ⟨some "", none⟩ none
    (fun _ => .errored "never called") rfl).1

/-- Claim C6: with `generateImage` omitted or false and a succeeding chat
call, the handler never calls the image provider and responds 200 with a
body holding exactly the message and the usage: no `image` field and no
image-`error` field. -/
theorem C6_no_image_requested (body : CompletionRequestBody)
    (chat : ChatApiRequest → ChatOutcome) (image : ImageRequest → ImageOutcome)
    (content : Option String) (usage : Usage)
    (hgen : body.generateImage.getD false = false)
    (hchat : chat ⟨body.messages, "gpt-3.5-turbo"⟩ = .success content usage) :
    handleCompletion body chat image =
      { chatCall := ⟨body.messages, "gpt-3.5-turbo"⟩, imageCall := none,
        response := .ok ⟨content, none, none, usage⟩ } := by
  unfold handleCompletion
  simp [hgen, hchat]

/-- Claim C6 witness: a request omitting `generateImage`. -/
theorem C6_witness :
    handleCompletion ⟨[⟨"user", "hello"⟩], none⟩
        (fun _ => .success (some "hi") ⟨1, 2, 3⟩)
        (fun _ => .success "http://img") =
      { chatCall := ⟨[⟨"user", "hello"⟩], "gpt-3.5-turbo"⟩, imageCall := none,
        response := .ok ⟨some "hi", none, none, ⟨1, 2, 3⟩⟩ } :=
  C6_no_image_requested ⟨[⟨"user", "hello"⟩], none⟩
    (fun _ => .success (some "hi") ⟨1, 2, 3⟩)
    (fun _ => .success "http://img") (some "hi") ⟨1, 2, 3⟩ rfl rfl

/-- Claim C7: with `generateImage: true` and a chat call succeeding with
generated text `t`, the handler calls the image provider with prompt `t`,
`n = 1` and size `"1024x1024"` (model `"dall-e-3"`), and on image success
responds 200 with the image URL together with the message and the usage.
(When the generated content is `null` the source substitutes the empty
prompt `textResponse || ""`; the hypothesis fixes an actual generated
text `t`, for which `t || ""` is `t` — also when `t` is empty.) -/
theorem C7_image_success (body : CompletionRequestBody)
    (chat : ChatApiRequest → ChatOutcome) (image : ImageRequest → ImageOutcome)
    (t : String) (usage : Usage) (url : String)
    (hgen : body.generateImage = some true)
    (hchat : chat ⟨body.messages, "gpt-3.5-turbo"⟩ = .success (some t) usage)
    (himg : image ⟨"dall-e-3", t, 1, "1024x1024"⟩ = .success url) :
    (handleCompletion body chat image).imageCall =
      some ⟨"dall-e-3", t, 1, "1024x1024"⟩ ∧
    (handleCompletion body chat image).response =
      .ok ⟨some t, some url, none, usage⟩ := by
  have heq : handleCompletion body chat image =
      { chatCall := ⟨body.messages, "gpt-3.5-turbo"⟩,
        imageCall := some ⟨"dall-e-3", t, 1, "1024x1024"⟩,
        response := .ok ⟨some t, some url, none, usage⟩ } := by
    unfold handleCompletion
    simp [hgen, hchat, himg]
  exact ⟨by rw [heq]; try rfl, by rw [heq]; try rfl⟩

/-- Claim C7 witness: a concrete request where both providers succeed. -/
theorem C7_witness :
    (handleCompletion ⟨[⟨"user", "hello"⟩], some true⟩
        (fun _ => .success (some "hi") ⟨1, 2, 3⟩)
        (fun _ => .success "http://img")).imageCall =
      some ⟨"dall-e-3", "hi", 1, "1024x1024"⟩ :=
  (C7_image_success ⟨[⟨"user", "hello"⟩], some true⟩
    (fun _ => .success (some "hi") ⟨1, 2, 3⟩)
    (fun _ => .success "http://img") "hi" ⟨1, 2, 3⟩ "http://img"
    rfl rfl rfl).1

/-- Claim C8: with a non-empty text, the synthesis session is configured
with voice `en-US-JennyMultilingualNeural` when `voice` is omitted, and with
the supplied value when `voice` is present — for every provider behavior. -/
theorem C8_voice_selection (body : TtsRequestBody)
    (synth : SynthCall → SynthInvocation)
    (htext : textFalsy body.text = false) :
    (body.voice = none →
      (handleTts body none synth).synthCall =
        some ⟨defaultVoice, body.text.getD ""⟩) ∧
    ∀ v, body.voice = some v →
      (handleTts body none synth).synthCall =
        some ⟨v, body.text.getD ""⟩ := by
  refine ⟨fun h => ?_, fun v h => ?_⟩ <;>
    rw [handleTts_synthCall_eq body synth htext, h] <;> rfl

/-- Claim C8 witness: text `"hi"` with `voice` omitted uses the default
voice. -/
theorem C8_witness :
    (handleTts ⟨some "hi", none⟩ none
        (fun _ => .completed (some (some [7])))).synthCall =
      some ⟨defaultVoice, "hi"⟩ :=
  (C8_voice_selection ⟨some "hi", none⟩
    (fun _ => .completed (some (some [7]))) rfl).1 rfl

/-- Claim C9: with a non-empty text and a provider returning audio bytes,
the handler sets exactly the headers `Content-Type: audio/wav` and
`Transfer-Encoding: chunked`, writes exactly the returned byte buffer as the
response body, ends the response with status 200, and closes the
synthesizer. -/
theorem C9_audio_success (body : TtsRequestBody)
    (synth : SynthCall → SynthInvocation) (bytes : List Nat)
    (htext : textFalsy body.text = false)
    (hsynth : synth ⟨body.voice.getD defaultVoice, body.text.getD ""⟩ =
      .completed (some (some bytes))) :
    handleTts body none synth =
      { sessionCreated := true,
        synthCall := some ⟨body.voice.getD defaultVoice, body.text.getD ""⟩,
        response := .audio [("Content-Type", "audio/wav"),
          ("Transfer-Encoding", "chunked")] bytes,
        synthesizerClosed := true, uncaughtRejection := none } ∧
    ((handleTts body none synth).response).status = some 200 := by
  have heq : handleTts body none synth =
      { sessionCreated := true,
        synthCall := some ⟨body.voice.getD defaultVoice, body.text.getD ""⟩,
        response := .audio ttsHeaders bytes,
        synthesizerClosed := true, uncaughtRejection := none } := by
    unfold handleTts
    simp [htext, hsynth]
  exact ⟨heq, by rw [heq]; try rfl⟩

/-- Claim C9 witness: text `"hi"`, provider returns the bytes `[82, 73]`. -/
theorem C9_witness :
    handleTts ⟨some "hi", none⟩ none
        (fun _ => .completed (some (some [82, 73]))) =
      { sessionCreated := true,
        synthCall := some ⟨defaultVoice, "hi"⟩,
        response := .audio [("Content-Type", "audio/wav"),
          ("Transfer-Encoding", "chunked")] [82, 73],
        synthesizerClosed := true, uncaughtRejection := none } :=
  (C9_audio_success ⟨some "hi", none⟩
    (fun _ => .completed (some (some [82, 73]))) [82, 73] rfl rfl).1

/-- Claim C10: whenever `generateImage` is omitted or false, the newer
completion handler of `src/unnamed/part_000` produces exactly the trace of
the older handler of `src/src/index.ts` on the same messages and the same
chat provider — the same `{message, usage}` response when the chat call
succeeds and the same 500 `{error, details}` envelope when it fails, with
no image call in either. -/
theorem C10_refines_old (body : CompletionRequestBody)
    (chat : ChatApiRequest → ChatOutcome) (image : ImageRequest → ImageOutcome)
    (hgen : body.generateImage.getD false = false) :
    handleCompletion body chat image = handleCompletionOld body.messages chat := by
  unfold handleCompletion handleCompletionOld
  cases h : chat ⟨body.messages, "gpt-3.5-turbo"⟩ with
  | failure e => simp [h]
  | success c u => simp [h, hgen]

/-- Claim C10 witness: concrete request with `generateImage` omitted. -/
theorem C10_witness :
    handleCompletion ⟨[⟨"user", "hello"⟩], none⟩
        (fun _ => .success (some "hi") ⟨1, 2, 3⟩)
        (fun _ => .failure none) =
      handleCompletionOld [⟨"user", "hello"⟩]
        (fun _ => .success (some "hi") ⟨1, 2, 3⟩) :=
  C10_refines_old ⟨[⟨"user", "hello"⟩], none⟩
    (fun _ => .success (some "hi") ⟨1, 2, 3⟩)
    (fun _ => .failure none) rfl
